import Mathlib

/-!
Shallow embedding of the job-board backend (src/backend/models.py,
src/backend/controllers/job_controller.py, src/backend/services/job_service.py).

Python strings are Lean strings; Python string methods (strip, split, join,
lower, substring search) are modelled on the underlying character list, so
`len(s)` is `s.data.length` and a string is Python-falsy exactly when
`s.data.isEmpty`.  Timestamps are abstract naturals; `datetime.fromisoformat`
is an external collaborator and is passed in as a `parseIso` parameter
returning `none` on parse failure.  The database session is modelled as the
list of committed rows: a handler returns its HTTP-level outcome together
with the table contents after the request (an uncommitted in-memory mutation
is rolled back at request end, so only an explicit commit changes the table).
-/

/-- Characters removed by Python `str.strip()`. -/
def isSpaceChar (c : Char) : Bool :=
  c == ' ' || c == '\t' || c == '\n' || c == '\r' || c == '\x0b' || c == '\x0c'

/-- `str.strip()` on a character list: drop whitespace at both ends. -/
def trimChars (l : List Char) : List Char :=
  ((l.dropWhile isSpaceChar).reverse.dropWhile isSpaceChar).reverse

/-- Python `s.strip()`. -/
def pyStrip (s : String) : String := String.mk (trimChars s.data)

/-- Python `s.lower()` (ASCII case folding). -/
def pyLower (s : String) : String := String.mk (s.data.map Char.toLower)

/-- Accumulator-style worker for Python `s.split(sep)`. -/
def splitCharAux (sep : Char) : List Char → List Char → List (List Char)
  | [], acc => [acc.reverse]
  | c :: cs, acc =>
    if c == sep then acc.reverse :: splitCharAux sep cs []
    else splitCharAux sep cs (c :: acc)

/-- Python `s.split(sep)`. -/
def pySplit (sep : Char) (s : String) : List String :=
  (splitCharAux sep s.data []).map String.mk

/-- Worker for Python `sep.join(parts)`. -/
def joinChar (sep : Char) : List (List Char) → List Char
  | [] => []
  | [x] => x
  | x :: y :: ys => x ++ sep :: joinChar sep (y :: ys)

/-- Python `",".join(parts)`. -/
def pyJoinComma (l : List String) : String :=
  String.mk (joinChar ',' (l.map String.data))

/-- Substring test on character lists (needle occurs contiguously in hay). -/
def containsSub (needle : List Char) : List Char → Bool
  | [] => needle.isEmpty
  | c :: rest => needle.isPrefixOf (c :: rest) || containsSub needle rest

/-- SQL `column ILIKE '%needle%'`: case-insensitive substring match. -/
def ilikeContains (hay needle : String) : Bool :=
  containsSub (pyLower needle).data (pyLower hay).data

/-- Python truthiness of an optional string: `None` and `""` are falsy. -/
def pyTruthy : Option String → Bool
  | none => false
  | some s => !s.data.isEmpty

/-- `s.replace("Z", "+00:00")`, done before handing the string to the ISO
parser. -/
def replaceZ (s : String) : String :=
  String.mk (s.data.flatMap fun c => if c == 'Z' then ['+', '0', '0', ':', '0', '0'] else [c])

/-- JSON values appearing in the handlers' response dictionaries.  A parsed
timestamp is serialised with isoformat; timestamps being abstract naturals
here, the serialised form is modelled as the numeric value itself. -/
inductive JVal where
  | null : JVal
  | str : String → JVal
  | num : Nat → JVal
  deriving DecidableEq

/-- Serialise an optional string column. -/
def optStrJ : Option String → JVal
  | none => JVal.null
  | some s => JVal.str s

/-- Serialise an optional timestamp column (`isoformat() if x else None`). -/
def optNatJ : Option Nat → JVal
  | none => JVal.null
  | some n => JVal.num n

/-- The Job row (models.py).  Nullable columns are Options; title, company and
location are Options as well because instances built by `from_dict` may lack
them before validation runs. -/
structure Job where
  id : Nat
  title : Option String
  company : Option String
  location : Option String
  posting_date : Option Nat
  posting_date_raw : Option String
  job_type : Option String
  tags : Option String
  created_at : Nat
  updated_at : Nat
  deriving DecidableEq

/-- `Job.VALID_JOB_TYPES`. -/
def VALID_JOB_TYPES : List String := ["Full-time", "Part-time", "Contract", "Internship"]

/-- `Job.to_dict`: the eight-key serialisation.  The list, fetch-by-id and
update handlers inline a dictionary with exactly these keys. -/
def Job.to_dict (j : Job) : List (String × JVal) :=
  [("id", JVal.num j.id), ("title", optStrJ j.title), ("company", optStrJ j.company),
   ("location", optStrJ j.location), ("posting_date", optNatJ j.posting_date),
   ("posting_date_raw", optStrJ j.posting_date_raw), ("job_type", optStrJ j.job_type),
   ("tags", optStrJ j.tags)]

/-- One required-plus-length rule of `Job.validate`: the "required" message
when the value is absent or blank after strip, else the 255-character cap on
the stripped value. -/
def validateRequired255 (field reqMsg lenMsg : String) (v : Option String) : List (String × String) :=
  match v with
  | none => [(field, reqMsg)]
  | some s =>
    if s.data.isEmpty || (trimChars s.data).isEmpty then [(field, reqMsg)]
    else if 255 < (trimChars s.data).length then [(field, lenMsg)]
    else []

/-- `Job.validate` (models.py): per-field error messages, collected in source
order; each field contributes at most one message. -/
def Job.validate (j : Job) : List (String × String) :=
  validateRequired255 "title" "Title is required" "Title must be 255 characters or less" j.title
  ++ validateRequired255 "company" "Company is required" "Company must be 255 characters or less" j.company
  ++ validateRequired255 "location" "Location is required" "Location must be 255 characters or less" j.location
  ++ (if pyTruthy j.job_type && !(VALID_JOB_TYPES.contains (j.job_type.getD "")) then
        [("job_type", "Job type must be one of: Full-time, Part-time, Contract, Internship")]
      else [])
  ++ (if pyTruthy j.tags && decide (1000 < (j.tags.getD "").data.length) then
        [("tags", "Tags must be 1000 characters or less")]
      else [])
  ++ (if pyTruthy j.posting_date_raw && decide (128 < (j.posting_date_raw.getD "").data.length) then
        [("posting_date_raw", "Posting date raw must be 128 characters or less")]
      else [])

/-- `Job.is_valid`. -/
def Job.is_valid (j : Job) : Bool := j.validate.length == 0

/-- `Job.get_tags_list`: split the raw tags string on commas, strip each
token, drop blanks. -/
def Job.get_tags_list (j : Job) : List String :=
  match j.tags with
  | none => []
  | some s =>
    if s.data.isEmpty then []
    else (pySplit ',' s).filterMap fun t =>
      if (trimChars t.data).isEmpty then none else some (pyStrip t)

/-- `Job.set_tags_from_list`: strip each entry, drop blanks, join with commas;
the column becomes NULL when nothing remains. -/
def Job.set_tags_from_list (j : Job) (tags_list : List String) : Job :=
  if tags_list.isEmpty then { j with tags := none }
  else
    let clean_tags := (tags_list.map pyStrip).filter fun t => !t.data.isEmpty
    { j with tags := if clean_tags.isEmpty then none else some (pyJoinComma clean_tags) }

/-- `Job.has_tag`: exact case-insensitive membership among the parsed tag
tokens (Python `in` on the lowered token list). -/
def Job.has_tag (j : Job) (tag : String) : Bool :=
  if tag.data.isEmpty || !pyTruthy j.tags then false
  else (j.get_tags_list.map pyLower).any fun x => x == pyLower tag

/-- A JSON request body for create/update.  A field is `some v` when the key
is present in the body; values are restricted to JSON strings, which is what
the handlers manipulate. -/
structure JobPayload where
  title : Option String := none
  company : Option String := none
  location : Option String := none
  posting_date : Option String := none
  posting_date_raw : Option String := none
  job_type : Option String := none
  tags : Option String := none
  deriving DecidableEq

/-- `Job.from_dict`: build an instance from a payload; a malformed
posting_date string is silently dropped. -/
def Job.from_dict (parseIso : String → Option Nat) (data : JobPayload) : Job :=
  { id := 0,
    title := data.title, company := data.company, location := data.location,
    posting_date :=
      match data.posting_date with
      | some s => if s.data.isEmpty then none else parseIso (replaceZ s)
      | none => none,
    posting_date_raw := data.posting_date_raw,
    job_type := data.job_type, tags := data.tags,
    created_at := 0, updated_at := 0 }

/-- `Job.query.get(id)`: the row with the given primary key. -/
def queryGet (db : List Job) (job_id : Nat) : Option Job :=
  db.find? fun j => j.id == job_id

/-- Outcome of `POST /jobs/add` (`create_job_controller`): 400 with the field
map, 409 duplicate, or 201 with the created representation. -/
inductive CreateResult where
  | validationFailed : List (String × String) → CreateResult
  | duplicate : CreateResult
  | created : List (String × JVal) → CreateResult
  deriving DecidableEq

/-- The create handler's inline 201 dictionary.  Its keys are id, title,
company, posting_date, posting_date_raw, job_type and tags — there is no
location key in the source. -/
def createResponse (j : Job) : List (String × JVal) :=
  [("id", JVal.num j.id), ("title", optStrJ j.title), ("company", optStrJ j.company),
   ("posting_date", optNatJ j.posting_date), ("posting_date_raw", optStrJ j.posting_date_raw),
   ("job_type", optStrJ j.job_type), ("tags", optStrJ j.tags)]

/-- The create handler's field checks, collected in source order: required
title/company/location, parseable posting_date when truthy, enumerated
job_type when truthy. -/
def createValidationErrors (parseIso : String → Option Nat) (data : JobPayload) : List (String × String) :=
  (if !pyTruthy data.title || (trimChars (data.title.getD "").data).isEmpty then
      [("title", "required")] else [])
  ++ (if !pyTruthy data.company || (trimChars (data.company.getD "").data).isEmpty then
      [("company", "required")] else [])
  ++ (if !pyTruthy data.location || (trimChars (data.location.getD "").data).isEmpty then
      [("location", "required")] else [])
  ++ (if pyTruthy data.posting_date && (parseIso (replaceZ (data.posting_date.getD ""))).isNone then
      [("posting_date", "must be valid ISO datetime")] else [])
  ++ (if pyTruthy data.job_type && !(VALID_JOB_TYPES.contains (data.job_type.getD "")) then
      [("job_type", "must be one of [Full-time, Part-time, Contract, Internship]")] else [])

/-- The create handler's duplicate lookup
(`Job.query.filter_by(title=data["title"], company=..., location=...)`):
exact equality against the raw payload strings, no trimming on either side. -/
def dupMatchRaw (data : JobPayload) (j : Job) : Bool :=
  j.title == some (data.title.getD "") && j.company == some (data.company.getD "")
    && j.location == some (data.location.getD "")

/-- The row the create handler inserts: raw payload strings, the parsed
posting_date, server-assigned id and timestamps. -/
def createdJob (parseIso : String → Option Nat) (nextId now : Nat) (data : JobPayload) : Job :=
  { id := nextId,
    title := some (data.title.getD ""), company := some (data.company.getD ""),
    location := some (data.location.getD ""),
    posting_date :=
      match data.posting_date with
      | some s => if s.data.isEmpty then none else parseIso (replaceZ s)
      | none => none,
    posting_date_raw := data.posting_date_raw, job_type := data.job_type, tags := data.tags,
    created_at := now, updated_at := now }

/-- `POST /jobs/add` (`create_job_controller`): validate, duplicate-check on
the raw triple, then insert.  Returns the outcome and the table afterwards. -/
def create_job_controller (parseIso : String → Option Nat) (db : List Job) (nextId now : Nat)
    (data : JobPayload) : CreateResult × List Job :=
  let errors := createValidationErrors parseIso data
  if !errors.isEmpty then (CreateResult.validationFailed errors, db)
  else if db.any (dupMatchRaw data) then (CreateResult.duplicate, db)
  else
    let nj := createdJob parseIso nextId now data
    (CreateResult.created (createResponse nj), db ++ [nj])

/-- Outcome of `PUT /jobs/id` (`update_job_controller`).  The two 400 shapes
match the source: `fields` is a bare string for the empty-payload rejection
and a one-entry field map for the per-field rejections. -/
inductive UpdateResult where
  | notFound : UpdateResult
  | validationFailedMsg : String → UpdateResult
  | validationFailedField : String → String → UpdateResult
  | ok : List (String × JVal) → UpdateResult
  deriving DecidableEq

/-- Whether an update outcome is the 200 success. -/
def UpdateResult.isOk : UpdateResult → Bool
  | UpdateResult.ok _ => true
  | _ => false

/-- `not data or len(data) == 0`: no key present in the body. -/
def JobPayload.isEmpty (d : JobPayload) : Bool :=
  d.title.isNone && d.company.isNone && d.location.isNone && d.posting_date.isNone
    && d.posting_date_raw.isNone && d.job_type.isNone && d.tags.isNone

/-- Update step for title: a present key must be non-blank after strip. -/
def applyTitle (data : JobPayload) (job : Job) : Except (String × String) Job :=
  match data.title with
  | none => Except.ok job
  | some t =>
    if (trimChars t.data).isEmpty then Except.error ("title", "required")
    else Except.ok { job with title := some t }

/-- Update step for company. -/
def applyCompany (data : JobPayload) (job : Job) : Except (String × String) Job :=
  match data.company with
  | none => Except.ok job
  | some c =>
    if (trimChars c.data).isEmpty then Except.error ("company", "required")
    else Except.ok { job with company := some c }

/-- Update step for location. -/
def applyLocation (data : JobPayload) (job : Job) : Except (String × String) Job :=
  match data.location with
  | none => Except.ok job
  | some l =>
    if (trimChars l.data).isEmpty then Except.error ("location", "required")
    else Except.ok { job with location := some l }

/-- Update step for posting_date: a present key must parse or the whole
update is rejected (the try/except around fromisoformat). -/
def applyPostingDate (parseIso : String → Option Nat) (data : JobPayload) (job : Job) :
    Except (String × String) Job :=
  match data.posting_date with
  | none => Except.ok job
  | some s =>
    match parseIso (replaceZ s) with
    | some ts => Except.ok { job with posting_date := some ts }
    | none => Except.error ("posting_date", "Invalid ISO datetime")

/-- Update step for posting_date_raw: set unconditionally when present. -/
def applyPostingDateRaw (data : JobPayload) (job : Job) : Except (String × String) Job :=
  match data.posting_date_raw with
  | none => Except.ok job
  | some r => Except.ok { job with posting_date_raw := some r }

/-- Update step for job_type: a present key must be one of the enumerated
values. -/
def applyJobType (data : JobPayload) (job : Job) : Except (String × String) Job :=
  match data.job_type with
  | none => Except.ok job
  | some t =>
    if VALID_JOB_TYPES.contains t then Except.ok { job with job_type := some t }
    else Except.error ("job_type", "Invalid type")

/-- Update step for tags: set unconditionally when present. -/
def applyTags (data : JobPayload) (job : Job) : Except (String × String) Job :=
  match data.tags with
  | none => Except.ok job
  | some t => Except.ok { job with tags := some t }

/-- The update handler's field sequence with its early returns, in source
order: title, company, location, posting_date, posting_date_raw, job_type,
tags. -/
def applyAll (parseIso : String → Option Nat) (data : JobPayload) (job : Job) :
    Except (String × String) Job :=
  match applyTitle data job with
  | Except.error e => Except.error e
  | Except.ok j1 =>
    match applyCompany data j1 with
    | Except.error e => Except.error e
    | Except.ok j2 =>
      match applyLocation data j2 with
      | Except.error e => Except.error e
      | Except.ok j3 =>
        match applyPostingDate parseIso data j3 with
        | Except.error e => Except.error e
        | Except.ok j4 =>
          match applyPostingDateRaw data j4 with
          | Except.error e => Except.error e
          | Except.ok j5 =>
            match applyJobType data j5 with
            | Except.error e => Except.error e
            | Except.ok j6 => applyTags data j6

/-- `PUT /jobs/id` (`update_job_controller`): fetch, reject an empty payload,
apply the present fields with early returns, stamp updated_at with the
current time, commit.  Returns the outcome and the table afterwards (errors
commit nothing). -/
def update_job_controller (parseIso : String → Option Nat) (db : List Job) (job_id : Nat)
    (now : Nat) (data : JobPayload) : UpdateResult × List Job :=
  match queryGet db job_id with
  | none => (UpdateResult.notFound, db)
  | some job =>
    if data.isEmpty then (UpdateResult.validationFailedMsg "At least one field required", db)
    else
      match applyAll parseIso data job with
      | Except.error e => (UpdateResult.validationFailedField e.1 e.2, db)
      | Except.ok j1 =>
        let j2 := { j1 with updated_at := now }
        (UpdateResult.ok (Job.to_dict j2), db.map fun x => if x.id == job_id then j2 else x)

/-- The body of `GET /jobs`' 200 response. -/
structure ListResponse where
  jobs : List (List (String × JVal))
  total : Nat
  page : Int
  page_size : Int
  deriving DecidableEq

/-- One row's filter condition for `GET /jobs`: the AND of the provided
filters, with SQL NULL semantics (a NULL column never matches ILIKE or
equality) and Python truthiness on the parameters (an empty string disables
its filter). -/
def jobMatchesQuery (search location job_type tag : Option String) (j : Job) : Bool :=
  (match search with
   | none => true
   | some s => s.data.isEmpty ||
       ((match j.title with | none => false | some ti => ilikeContains ti s) ||
        (match j.company with | none => false | some co => ilikeContains co s)))
  && (match location with
      | none => true
      | some lo => lo.data.isEmpty ||
          (match j.location with | none => false | some x => ilikeContains x lo))
  && (match job_type with
      | none => true
      | some t => t.data.isEmpty || j.job_type == some t)
  && (match tag with
      | none => true
      | some t => t.data.isEmpty ||
          (match j.tags with | none => false | some tg => ilikeContains tg t))

/-- Comparison key for ORDER BY posting_date, with NULL as the smallest value
(SQLite's ordering for NULL). -/
def pdLe (a b : Option Nat) : Bool :=
  match a, b with
  | none, _ => true
  | some _, none => false
  | some x, some y => Nat.ble x y

/-- Insertion step of the sort. -/
def insertSorted (le : Job → Job → Bool) (x : Job) : List Job → List Job
  | [] => [x]
  | y :: ys => if le x y then x :: y :: ys else y :: insertSorted le x ys

/-- Stable insertion sort used to model ORDER BY. -/
def sortJobs (le : Job → Job → Bool) : List Job → List Job
  | [] => []
  | x :: xs => insertSorted le x (sortJobs le xs)

/-- `GET /jobs` (`get_jobs_controller`): defaults, max page size 100,
conjunctive filters, sort by posting_date, OFFSET/LIMIT pagination, and the
echoed paging values.  `total` counts the filtered set before pagination. -/
def get_jobs_controller (db : List Job)
    (search location job_type tag : Option String) (sort : Option String)
    (pageArg pageSizeArg : Option Int) : ListResponse :=
  let sortv := sort.getD "posting_date_desc"
  let page := pageArg.getD 1
  let page_size0 := pageSizeArg.getD 10
  let page_size := if page_size0 > 100 then 100 else page_size0
  let filtered := db.filter (jobMatchesQuery search location job_type tag)
  let total := filtered.length
  let sorted :=
    if sortv == "posting_date_asc" then
      sortJobs (fun a b => pdLe a.posting_date b.posting_date) filtered
    else
      sortJobs (fun a b => pdLe b.posting_date a.posting_date) filtered
  let jobs := ((sorted.drop ((page - 1) * page_size).toNat).take page_size.toNat).map Job.to_dict
  { jobs := jobs, total := total, page := page, page_size := page_size }

/-- `JobService.update_job`: apply the present keys (a malformed posting_date
string is silently ignored, leaving the stored value), validate the mutated
row, and commit only when validation passes.  Returns (job_dict, errors) as
in the source, plus the table afterwards. -/
def JobService.update_job (parseIso : String → Option Nat) (db : List Job) (job_id : Nat)
    (data : JobPayload) :
    Option (List (String × JVal)) × Option (List (String × String)) × List Job :=
  match queryGet db job_id with
  | none => (none, some [("not_found", "Job not found")], db)
  | some job0 =>
    let job1 := match data.title with | some t => { job0 with title := some t } | none => job0
    let job2 := match data.company with | some c => { job1 with company := some c } | none => job1
    let job3 := match data.location with | some l => { job2 with location := some l } | none => job2
    let job4 :=
      match data.posting_date with
      | some s =>
        (match parseIso (replaceZ s) with
         | some ts => { job3 with posting_date := some ts }
         | none => job3)
      | none => job3
    let job5 := match data.posting_date_raw with
      | some r => { job4 with posting_date_raw := some r } | none => job4
    let job6 := match data.job_type with | some t => { job5 with job_type := some t } | none => job5
    let job7 := match data.tags with | some t => { job6 with tags := some t } | none => job6
    let errs := job7.validate
    if !errs.isEmpty then (none, some errs, db)
    else (some job7.to_dict, none, db.map fun x => if x.id == job_id then job7 else x)

/-- `JobService.create_job`: build via from_dict, validate, duplicate-check
comparing the payload's trimmed components against stored values as-is, then
insert. -/
def JobService.create_job (parseIso : String → Option Nat) (db : List Job) (nextId now : Nat)
    (data : JobPayload) :
    Option (List (String × JVal)) × Option (List (String × String)) × List Job :=
  let job := Job.from_dict parseIso data
  let errs := job.validate
  if !errs.isEmpty then (none, some errs, db)
  else if db.any (fun j =>
      j.title == some (pyStrip (job.title.getD "")) &&
      j.company == some (pyStrip (job.company.getD "")) &&
      j.location == some (pyStrip (job.location.getD ""))) then
    (none, some [("duplicate", "Job already exists")], db)
  else
    let nj := { job with id := nextId, created_at := now, updated_at := now }
    (some nj.to_dict, none, db ++ [nj])

/-- A concrete stand-in for the external ISO parser, used to instantiate the
theorems: it accepts exactly one normalised date string and rejects every
other input, the way datetime.fromisoformat rejects malformed text. -/
def demoParse : String → Option Nat :=
  fun s => if s = "2024-01-02T00:00:00+00:00" then some 1704153600 else none

/-- A stored row used as a concrete table entry in witnesses. -/
def jobA : Job :=
  { id := 1, title := some "A", company := some "B", location := some "C",
    posting_date := none, posting_date_raw := none, job_type := none, tags := none,
    created_at := 0, updated_at := 0 }

/-- C1: with a payload passing field validation, the create handler rejects as
a duplicate exactly when a stored row's (title, company, location) triple
equals the payload's raw triple, and otherwise appends the new row. -/
theorem create_duplicate_requires_exact_triple (parseIso : String → Option Nat)
    (db : List Job) (nextId now : Nat) (data : JobPayload)
    (hv : createValidationErrors parseIso data = []) :
    ((create_job_controller parseIso db nextId now data).1 = CreateResult.duplicate ↔
      db.any (dupMatchRaw data) = true) ∧
    (db.any (dupMatchRaw data) = false →
      create_job_controller parseIso db nextId now data =
        (CreateResult.created (createResponse (createdJob parseIso nextId now data)),
         db ++ [createdJob parseIso nextId now data])) := by
  unfold create_job_controller
  rw [hv]
  constructor
  · cases h : db.any (dupMatchRaw data) <;> simp [h]
  · intro h
    simp [h]

/-- Counterexample to C1 as stated: the stored triple (A, B, C) and the
payload triple (A␣, B, C) are equal after trimming, yet the handler does not
reject the create as a duplicate — it inserts a second row, because its
duplicate lookup compares the raw strings without trimming. -/
theorem create_trimmed_duplicate_not_detected :
    (pyStrip "A " = pyStrip "A" ∧ pyStrip "B" = pyStrip "B" ∧ pyStrip "C" = pyStrip "C") ∧
    (create_job_controller demoParse [jobA] 2 7
        { title := some "A ", company := some "B", location := some "C" }).1 =
      CreateResult.created (createResponse (createdJob demoParse 2 7
        { title := some "A ", company := some "B", location := some "C" })) := by
  decide

/-- Witness for create_duplicate_requires_exact_triple at a concrete input. -/
theorem create_duplicate_requires_exact_triple_witness :
    (createValidationErrors demoParse
        { title := some "A", company := some "B", location := some "C" } = []) ∧
    (((create_job_controller demoParse [jobA] 2 7
          { title := some "A", company := some "B", location := some "C" }).1 =
        CreateResult.duplicate ↔
      [jobA].any (dupMatchRaw
          { title := some "A", company := some "B", location := some "C" }) = true)) :=
  ⟨by decide,
   (create_duplicate_requires_exact_triple demoParse [jobA] 2 7
      { title := some "A", company := some "B", location := some "C" } (by decide)).1⟩

/-- C5: an update request on an existing id whose body contains no field is
rejected as a validation failure and the table is unchanged. -/
theorem empty_update_payload_rejected (parseIso : String → Option Nat)
    (db : List Job) (jid now : Nat) (j : Job) (h : queryGet db jid = some j) :
    update_job_controller parseIso db jid now {} =
      (UpdateResult.validationFailedMsg "At least one field required", db) := by
  unfold update_job_controller
  rw [h]
  rfl

/-- Witness for empty_update_payload_rejected at a concrete input. -/
theorem empty_update_payload_rejected_witness :
    queryGet [jobA] 1 = some jobA ∧
    update_job_controller demoParse [jobA] 1 9 {} =
      (UpdateResult.validationFailedMsg "At least one field required", [jobA]) :=
  ⟨by decide, empty_update_payload_rejected demoParse [jobA] 1 9 jobA (by decide)⟩

/-- C3: updating an existing job with a body containing only the tags key
succeeds, replaces only tags, stamps updated_at with the current time, and
leaves title, company, location, posting_date, posting_date_raw and job_type
at their prior values. -/
theorem update_tags_only_frame (parseIso : String → Option Nat)
    (db : List Job) (jid now : Nat) (s : String) (j : Job) (h : queryGet db jid = some j) :
    update_job_controller parseIso db jid now { tags := some s } =
      (UpdateResult.ok (Job.to_dict { j with tags := some s, updated_at := now }),
       db.map fun x => if x.id == jid then { j with tags := some s, updated_at := now } else x) ∧
    ({ j with tags := some s, updated_at := now } : Job).title = j.title ∧
    ({ j with tags := some s, updated_at := now } : Job).company = j.company ∧
    ({ j with tags := some s, updated_at := now } : Job).location = j.location ∧
    ({ j with tags := some s, updated_at := now } : Job).posting_date = j.posting_date ∧
    ({ j with tags := some s, updated_at := now } : Job).posting_date_raw = j.posting_date_raw ∧
    ({ j with tags := some s, updated_at := now } : Job).job_type = j.job_type ∧
    ({ j with tags := some s, updated_at := now } : Job).tags = some s ∧
    ({ j with tags := some s, updated_at := now } : Job).updated_at = now := by
  refine ⟨?_, rfl, rfl, rfl, rfl, rfl, rfl, rfl, rfl⟩
  unfold update_job_controller
  rw [h]
  rfl

/-- Witness for update_tags_only_frame at a concrete input. -/
theorem update_tags_only_frame_witness :
    queryGet [jobA] 1 = some jobA ∧
    update_job_controller demoParse [jobA] 1 9 { tags := some "python,remote" } =
      (UpdateResult.ok (Job.to_dict { jobA with tags := some "python,remote", updated_at := 9 }),
       [jobA].map fun x =>
         if x.id == 1 then { jobA with tags := some "python,remote", updated_at := 9 } else x) :=
  ⟨by decide,
   (update_tags_only_frame demoParse [jobA] 1 9 "python,remote" jobA (by decide)).1⟩

/-- If the update handler's field sequence succeeds while the body carries a
job_type key, that value passed the enumeration check. -/
theorem applyAll_ok_jobType_mem (parseIso : String → Option Nat) (data : JobPayload)
    (job j6 : Job) (t : String)
    (hok : applyAll parseIso data job = Except.ok j6) (hjt : data.job_type = some t) :
    VALID_JOB_TYPES.contains t = true := by
  by_cases hc : VALID_JOB_TYPES.contains t = true
  · exact hc
  exfalso
  rw [Bool.not_eq_true] at hc
  unfold applyAll at hok
  cases h1 : applyTitle data job with
  | error e => simp only [h1] at hok; exact Except.noConfusion hok
  | ok j1 =>
  simp only [h1] at hok
  cases h2 : applyCompany data j1 with
  | error e => simp only [h2] at hok; exact Except.noConfusion hok
  | ok j2 =>
  simp only [h2] at hok
  cases h3 : applyLocation data j2 with
  | error e => simp only [h3] at hok; exact Except.noConfusion hok
  | ok j3 =>
  simp only [h3] at hok
  cases h4 : applyPostingDate parseIso data j3 with
  | error e => simp only [h4] at hok; exact Except.noConfusion hok
  | ok j4 =>
  simp only [h4] at hok
  cases h5 : applyPostingDateRaw data j4 with
  | error e => simp only [h5] at hok; exact Except.noConfusion hok
  | ok j5 =>
  simp only [h5] at hok
  cases h6 : applyJobType data j5 with
  | error e => simp only [h6] at hok; exact Except.noConfusion hok
  | ok jj =>
  unfold applyJobType at h6
  rw [hjt] at h6
  simp only [hc] at h6
  simp at h6

/-- C6: an update on an existing job whose body carries a job_type outside
the enumerated set is rejected — whatever other keys the body holds — and the
table is unchanged. -/
theorem invalid_job_type_update_rejected (parseIso : String → Option Nat)
    (db : List Job) (jid now : Nat) (data : JobPayload) (t : String) (j : Job)
    (h : queryGet db jid = some j) (hjt : data.job_type = some t)
    (ht : VALID_JOB_TYPES.contains t = false) :
    (update_job_controller parseIso db jid now data).1.isOk = false ∧
    (update_job_controller parseIso db jid now data).2 = db := by
  unfold update_job_controller
  rw [h]
  have hne : data.isEmpty = false := by
    unfold JobPayload.isEmpty
    rw [hjt]
    simp
  rw [hne]
  simp only [Bool.false_eq_true, if_false]
  cases hap : applyAll parseIso data j with
  | error e => simp [UpdateResult.isOk]
  | ok j6 =>
    exact absurd (applyAll_ok_jobType_mem parseIso data j j6 t hap hjt)
      (by rw [ht]; exact Bool.false_ne_true)

/-- Witness for invalid_job_type_update_rejected at a concrete input. -/
theorem invalid_job_type_update_rejected_witness :
    queryGet [jobA] 1 = some jobA ∧
    some "Fulltime" = some "Fulltime" ∧
    VALID_JOB_TYPES.contains "Fulltime" = false ∧
    (update_job_controller demoParse [jobA] 1 9
        { title := some "NewTitle", job_type := some "Fulltime" }).1.isOk = false ∧
    (update_job_controller demoParse [jobA] 1 9
        { title := some "NewTitle", job_type := some "Fulltime" }).2 = [jobA] :=
  ⟨by decide, rfl, by decide,
   (invalid_job_type_update_rejected demoParse [jobA] 1 9
      { title := some "NewTitle", job_type := some "Fulltime" } "Fulltime" jobA
      (by decide) rfl (by decide)).1,
   (invalid_job_type_update_rejected demoParse [jobA] 1 9
      { title := some "NewTitle", job_type := some "Fulltime" } "Fulltime" jobA
      (by decide) rfl (by decide)).2⟩

/-- C7: a page_size above 100 behaves exactly as page_size 100 — the window
used for pagination and the echoed page_size are those of 100 — while values
of at most 100 are echoed as given, and an omitted page_size defaults to 10. -/
theorem page_size_clamped_to_100 (db : List Job)
    (search location job_type tag sort : Option String) (page psize : Int) :
    (psize > 100 →
      get_jobs_controller db search location job_type tag sort (some page) (some psize) =
        get_jobs_controller db search location job_type tag sort (some page) (some 100)) ∧
    ((get_jobs_controller db search location job_type tag sort (some page) (some psize)).page_size =
      if psize > 100 then 100 else psize) ∧
    (get_jobs_controller db search location job_type tag sort (some page) none).page_size = 10 := by
  refine ⟨?_, rfl, rfl⟩
  intro h
  unfold get_jobs_controller
  simp only [Option.getD_some]
  rw [if_pos h, if_neg (show ¬((100 : Int) > 100) by norm_num)]

/-- Witness for page_size_clamped_to_100 at a concrete input. -/
theorem page_size_clamped_to_100_witness :
    ((150 : Int) > 100) ∧
    get_jobs_controller [jobA] none none none none none (some 1) (some 150) =
      get_jobs_controller [jobA] none none none none none (some 1) (some 100) :=
  ⟨by decide,
   (page_size_clamped_to_100 [jobA] none none none none none 1 150).1 (by decide)⟩

/-- C8: the claim is right and the create handler is the slip — every job
object the spec describes carries eight keys including location, and
`Job.to_dict` (used by the list, fetch-by-id and update responses) does, but
the create handler's inline 201 dictionary omits the location key; the
concrete run shows a valid create whose success body has no location. -/
theorem create_response_omits_location :
    (∀ job : Job, (createResponse job).map Prod.fst =
        ["id", "title", "company", "posting_date", "posting_date_raw", "job_type", "tags"] ∧
      "location" ∉ (createResponse job).map Prod.fst) ∧
    (∀ job : Job, (Job.to_dict job).map Prod.fst =
        ["id", "title", "company", "location", "posting_date", "posting_date_raw", "job_type", "tags"]) ∧
    (create_job_controller demoParse [] 1 0
        { title := some "Engineer", company := some "Acme", location := some "Remote" }).1 =
      CreateResult.created (createResponse
        { id := 1, title := some "Engineer", company := some "Acme", location := some "Remote",
          posting_date := none, posting_date_raw := none, job_type := none, tags := none,
          created_at := 0, updated_at := 0 }) := by
  refine ⟨fun job => ⟨rfl, ?_⟩, fun job => rfl, by decide⟩
  rw [show (createResponse job).map Prod.fst =
      ["id", "title", "company", "posting_date", "posting_date_raw", "job_type", "tags"] from rfl]
  decide

/-- Counterexample to C4 as stated: on a malformed posting_date string the
HTTP update handler does not silently discard the value and succeed — it
rejects the whole update with a validation error naming posting_date. -/
theorem update_controller_rejects_bad_posting_date :
    demoParse (replaceZ "not-a-date") = none ∧
    update_job_controller demoParse [jobA] 1 9 { posting_date := some "not-a-date" } =
      (UpdateResult.validationFailedField "posting_date" "Invalid ISO datetime", [jobA]) := by
  decide

/-- C4 (amended): when a supplied posting_date string fails ISO parsing, the
create handler rejects with a validation error naming posting_date and
commits nothing; the HTTP update handler likewise rejects the whole update
with a validation error naming posting_date; only the service-layer update
silently discards the value, succeeds, and leaves the stored posting_date
untouched. -/
theorem posting_date_parse_failure_asymmetry (parseIso : String → Option Nat)
    (db : List Job) (nextId now jid : Nat) (s : String) (j : Job) (data : JobPayload) :
    (data.posting_date = some s → s.data.isEmpty = false → parseIso (replaceZ s) = none →
      ("posting_date", "must be valid ISO datetime") ∈ createValidationErrors parseIso data ∧
      (create_job_controller parseIso db nextId now data).1 =
        CreateResult.validationFailed (createValidationErrors parseIso data) ∧
      (create_job_controller parseIso db nextId now data).2 = db) ∧
    (parseIso (replaceZ s) = none → queryGet db jid = some j →
      update_job_controller parseIso db jid now { posting_date := some s } =
        (UpdateResult.validationFailedField "posting_date" "Invalid ISO datetime", db)) ∧
    (parseIso (replaceZ s) = none → queryGet db jid = some j → j.validate = [] →
      JobService.update_job parseIso db jid { posting_date := some s } =
        (some j.to_dict, none, db.map fun x => if x.id == jid then j else x)) := by
  refine ⟨?_, ?_, ?_⟩
  · intro hpd hne hfail
    have hmem : ("posting_date", "must be valid ISO datetime") ∈ createValidationErrors parseIso data := by
      unfold createValidationErrors
      rw [hpd]
      have hcond : (pyTruthy (some s) && (parseIso (replaceZ s)).isNone) = true := by
        rw [hfail]
        simp [pyTruthy, hne]
      rw [Option.getD_some, hcond]
      simp
    have hF : (createValidationErrors parseIso data).isEmpty = false := by
      cases hh : (createValidationErrors parseIso data).isEmpty
      · rfl
      · exact absurd (List.isEmpty_iff.mp hh) (List.ne_nil_of_mem hmem)
    refine ⟨hmem, ?_, ?_⟩
    · unfold create_job_controller
      simp [hF]
    · unfold create_job_controller
      simp [hF]
  · intro hfail hget
    unfold update_job_controller
    rw [hget]
    have hne : (({ posting_date := some s } : JobPayload)).isEmpty = false := by
      unfold JobPayload.isEmpty
      simp
    rw [hne]
    simp only [Bool.false_eq_true, if_false]
    have hap : applyAll parseIso { posting_date := some s } j =
        Except.error ("posting_date", "Invalid ISO datetime") := by
      unfold applyAll applyTitle applyCompany applyLocation applyPostingDate
      simp [hfail]
    rw [hap]
  · intro hfail hget hvalid
    unfold JobService.update_job
    rw [hget]
    simp only [hfail]
    rw [hvalid]
    rfl

/-- Witness for posting_date_parse_failure_asymmetry at a concrete input. -/
theorem posting_date_parse_failure_asymmetry_witness :
    (("posting_date", "must be valid ISO datetime") ∈ createValidationErrors demoParse
        { title := some "Engineer", company := some "Acme", location := some "Remote",
          posting_date := some "not-a-date" } ∧
      (create_job_controller demoParse [jobA] 2 7
          { title := some "Engineer", company := some "Acme", location := some "Remote",
            posting_date := some "not-a-date" }).1 =
        CreateResult.validationFailed (createValidationErrors demoParse
          { title := some "Engineer", company := some "Acme", location := some "Remote",
            posting_date := some "not-a-date" }) ∧
      (create_job_controller demoParse [jobA] 2 7
          { title := some "Engineer", company := some "Acme", location := some "Remote",
            posting_date := some "not-a-date" }).2 = [jobA]) ∧
    (update_job_controller demoParse [jobA] 1 7 { posting_date := some "not-a-date" } =
      (UpdateResult.validationFailedField "posting_date" "Invalid ISO datetime", [jobA])) ∧
    (JobService.update_job demoParse [jobA] 1 { posting_date := some "not-a-date" } =
      (some jobA.to_dict, none, [jobA].map fun x => if x.id == 1 then jobA else x)) :=
  ⟨(posting_date_parse_failure_asymmetry demoParse [jobA] 2 7 1 "not-a-date" jobA
      { title := some "Engineer", company := some "Acme", location := some "Remote",
        posting_date := some "not-a-date" }).1 rfl (by decide) (by decide),
   (posting_date_parse_failure_asymmetry demoParse [jobA] 2 7 1 "not-a-date" jobA
      { title := some "Engineer", company := some "Acme", location := some "Remote",
        posting_date := some "not-a-date" }).2.1 (by decide) (by decide),
   (posting_date_parse_failure_asymmetry demoParse [jobA] 2 7 1 "not-a-date" jobA
      { title := some "Engineer", company := some "Acme", location := some "Remote",
        posting_date := some "not-a-date" }).2.2 (by decide) (by decide) (by decide)⟩


/-- Spec rule for title, company and location: required (non-blank after
trimming) and at most 255 characters after trimming. -/
def specReqFieldOk (v : Option String) : Bool :=
  match v with
  | none => false
  | some s => !(trimChars s.data).isEmpty && decide ((trimChars s.data).length ≤ 255)

/-- Spec rule for job_type: when present (Python-truthy, i.e. non-null and
non-empty, matching the code's guard) it must be one of the four enumerated
values. -/
def specJobTypeOk (v : Option String) : Bool :=
  match v with
  | none => true
  | some s => s.data.isEmpty || VALID_JOB_TYPES.contains s

/-- Spec rule for tags: at most 1000 characters. -/
def specTagsOk (v : Option String) : Bool :=
  match v with
  | none => true
  | some s => decide (s.data.length ≤ 1000)

/-- Spec rule for posting_date_raw: at most 128 characters. -/
def specRawOk (v : Option String) : Bool :=
  match v with
  | none => true
  | some s => decide (s.data.length ≤ 128)

/-- An empty character list trims to the empty list. -/
theorem trim_isEmpty_of_data_isEmpty (s : String) (h : s.data.isEmpty = true) :
    (trimChars s.data).isEmpty = true := by
  rw [List.isEmpty_iff.mp h]
  rfl

/-- A required-plus-length segment is silent exactly when the spec rule for
that field holds. -/
theorem validateRequired255_eq_nil (f m1 m2 : String) (v : Option String) :
    (validateRequired255 f m1 m2 v = []) ↔ specReqFieldOk v = true := by
  cases v with
  | none => simp [validateRequired255, specReqFieldOk]
  | some s =>
    simp only [validateRequired255, specReqFieldOk]
    by_cases h1 : (s.data.isEmpty || (trimChars s.data).isEmpty) = true
    · rw [if_pos h1]
      have h1x : s.data.isEmpty = true ∨ (trimChars s.data).isEmpty = true := by
        simpa using h1
      have h2 : (trimChars s.data).isEmpty = true := by
        cases h1x with
        | inl he => exact trim_isEmpty_of_data_isEmpty s he
        | inr ht => exact ht
      simp [h2]
    · rw [if_neg h1]
      have h2 : (trimChars s.data).isEmpty = false := by
        cases hh : (trimChars s.data).isEmpty
        · rfl
        · exact absurd (by rw [hh]; simp : (s.data.isEmpty || (trimChars s.data).isEmpty) = true) h1
      by_cases h3 : 255 < (trimChars s.data).length
      · rw [if_pos h3]
        simp only [h2, Bool.not_false, Bool.true_and, decide_eq_true_eq]
        constructor
        · intro h; exact absurd h (by simp)
        · intro h; exact absurd h (by omega)
      · rw [if_neg h3]
        have h4 : (trimChars s.data).length ≤ 255 := Nat.not_lt.mp h3
        simp [h2, h4]

/-- What a required-plus-length segment contributes to a search for messages
of field g. -/
theorem validateRequired255_any (f m1 m2 g : String) (v : Option String) :
    ((validateRequired255 f m1 m2 v).any fun e => e.1 == g) = ((f == g) && !specReqFieldOk v) := by
  cases v with
  | none => simp [validateRequired255, specReqFieldOk]
  | some s =>
    simp only [validateRequired255, specReqFieldOk]
    by_cases h1 : (s.data.isEmpty || (trimChars s.data).isEmpty) = true
    · rw [if_pos h1]
      have h1x : s.data.isEmpty = true ∨ (trimChars s.data).isEmpty = true := by
        simpa using h1
      have h2 : (trimChars s.data).isEmpty = true := by
        cases h1x with
        | inl he => exact trim_isEmpty_of_data_isEmpty s he
        | inr ht => exact ht
      simp [h2]
    · rw [if_neg h1]
      have h2 : (trimChars s.data).isEmpty = false := by
        cases hh : (trimChars s.data).isEmpty
        · rfl
        · exact absurd (by rw [hh]; simp : (s.data.isEmpty || (trimChars s.data).isEmpty) = true) h1
      by_cases h3 : 255 < (trimChars s.data).length
      · rw [if_pos h3]
        have h4 : decide ((trimChars s.data).length ≤ 255) = false := by
          simp only [decide_eq_false_iff_not]
          omega
        simp [h2, h4]
      · rw [if_neg h3]
        have h4 : decide ((trimChars s.data).length ≤ 255) = true := by
          simp only [decide_eq_true_eq]
          omega
        simp [h2, h4]

/-- A boolean-guarded one-message segment is silent exactly when its guard is
off. -/
theorem ifSegment_eq_nil (c : Bool) (p : String × String) :
    ((if c = true then [p] else []) = []) ↔ c = false := by
  cases c <;> simp

/-- What a boolean-guarded one-message segment contributes to a search for
messages of field g. -/
theorem ifSegment_any (c : Bool) (p : String × String) (g : String) :
    ((if c = true then [p] else []).any fun e => e.1 == g) = (c && (p.1 == g)) := by
  cases c <;> simp

/-- The job_type guard is off exactly when the spec rule for job_type holds. -/
theorem jobType_guard_off (v : Option String) :
    ((pyTruthy v && !(VALID_JOB_TYPES.contains (v.getD ""))) = false) ↔ specJobTypeOk v = true := by
  cases v with
  | none => simp [pyTruthy, specJobTypeOk]
  | some s =>
    cases hd : s.data.isEmpty <;> cases hc : VALID_JOB_TYPES.contains s <;>
      simp [pyTruthy, specJobTypeOk, hd, hc]

/-- The tags guard is off exactly when the spec rule for tags holds. -/
theorem tags_guard_off (v : Option String) :
    ((pyTruthy v && decide (1000 < (v.getD "").data.length)) = false) ↔ specTagsOk v = true := by
  cases v with
  | none => simp [pyTruthy, specTagsOk]
  | some s =>
    cases hd : s.data.isEmpty
    · simp [pyTruthy, specTagsOk, hd]
    · have h0 : s.data.length = 0 := by
        rw [List.isEmpty_iff.mp hd]
        rfl
      simp [pyTruthy, specTagsOk, hd, h0]

/-- The posting_date_raw guard is off exactly when the spec rule for
posting_date_raw holds. -/
theorem raw_guard_off (v : Option String) :
    ((pyTruthy v && decide (128 < (v.getD "").data.length)) = false) ↔ specRawOk v = true := by
  cases v with
  | none => simp [pyTruthy, specRawOk]
  | some s =>
    cases hd : s.data.isEmpty
    · simp [pyTruthy, specRawOk, hd]
    · have h0 : s.data.length = 0 := by
        rw [List.isEmpty_iff.mp hd]
        rfl
      simp [pyTruthy, specRawOk, hd, h0]

/-- A guard that is off exactly when a flag is on is the negation of that
flag. -/
theorem guard_eq_not_of_off_iff {g s : Bool} (h : (g = false) ↔ (s = true)) : g = !s := by
  cases g <;> cases s <;> simp_all

/-- C2: the validator applies every rule independently and collects all
violations — the error map carries an entry for a field exactly when that
field's rule is broken — the map is empty exactly when every rule holds, and
is_valid is exactly emptiness of the map. -/
theorem validate_collects_all_violations (j : Job) :
    (j.validate = [] ↔
      (specReqFieldOk j.title && specReqFieldOk j.company && specReqFieldOk j.location
        && specJobTypeOk j.job_type && specTagsOk j.tags && specRawOk j.posting_date_raw) = true)
    ∧ ((j.validate.any fun e => e.1 == "title") = !specReqFieldOk j.title)
    ∧ ((j.validate.any fun e => e.1 == "company") = !specReqFieldOk j.company)
    ∧ ((j.validate.any fun e => e.1 == "location") = !specReqFieldOk j.location)
    ∧ ((j.validate.any fun e => e.1 == "job_type") = !specJobTypeOk j.job_type)
    ∧ ((j.validate.any fun e => e.1 == "tags") = !specTagsOk j.tags)
    ∧ ((j.validate.any fun e => e.1 == "posting_date_raw") = !specRawOk j.posting_date_raw)
    ∧ (j.is_valid = true ↔ j.validate = []) := by
  refine ⟨?_, ?_, ?_, ?_, ?_, ?_, ?_, ?_⟩
  · unfold Job.validate
    rw [List.append_eq_nil, List.append_eq_nil, List.append_eq_nil, List.append_eq_nil,
      List.append_eq_nil]
    rw [validateRequired255_eq_nil, validateRequired255_eq_nil, validateRequired255_eq_nil,
      ifSegment_eq_nil, ifSegment_eq_nil, ifSegment_eq_nil,
      jobType_guard_off, tags_guard_off, raw_guard_off]
    simp only [Bool.and_eq_true]
  · unfold Job.validate
    simp only [List.any_append, validateRequired255_any, ifSegment_any]
    rw [show (("title" : String) == "title") = true from by decide,
      show (("company" : String) == "title") = false from by decide,
      show (("location" : String) == "title") = false from by decide,
      show (("job_type" : String) == "title") = false from by decide,
      show (("tags" : String) == "title") = false from by decide,
      show (("posting_date_raw" : String) == "title") = false from by decide]
    simp
  · unfold Job.validate
    simp only [List.any_append, validateRequired255_any, ifSegment_any]
    rw [show (("title" : String) == "company") = false from by decide,
      show (("company" : String) == "company") = true from by decide,
      show (("location" : String) == "company") = false from by decide,
      show (("job_type" : String) == "company") = false from by decide,
      show (("tags" : String) == "company") = false from by decide,
      show (("posting_date_raw" : String) == "company") = false from by decide]
    simp
  · unfold Job.validate
    simp only [List.any_append, validateRequired255_any, ifSegment_any]
    rw [show (("title" : String) == "location") = false from by decide,
      show (("company" : String) == "location") = false from by decide,
      show (("location" : String) == "location") = true from by decide,
      show (("job_type" : String) == "location") = false from by decide,
      show (("tags" : String) == "location") = false from by decide,
      show (("posting_date_raw" : String) == "location") = false from by decide]
    simp
  · unfold Job.validate
    simp only [List.any_append, validateRequired255_any, ifSegment_any]
    rw [show (("title" : String) == "job_type") = false from by decide,
      show (("company" : String) == "job_type") = false from by decide,
      show (("location" : String) == "job_type") = false from by decide,
      show (("job_type" : String) == "job_type") = true from by decide,
      show (("tags" : String) == "job_type") = false from by decide,
      show (("posting_date_raw" : String) == "job_type") = false from by decide,
      guard_eq_not_of_off_iff (jobType_guard_off j.job_type)]
    simp
  · unfold Job.validate
    simp only [List.any_append, validateRequired255_any, ifSegment_any]
    rw [show (("title" : String) == "tags") = false from by decide,
      show (("company" : String) == "tags") = false from by decide,
      show (("location" : String) == "tags") = false from by decide,
      show (("job_type" : String) == "tags") = false from by decide,
      show (("tags" : String) == "tags") = true from by decide,
      show (("posting_date_raw" : String) == "tags") = false from by decide,
      guard_eq_not_of_off_iff (tags_guard_off j.tags)]
    simp
  · unfold Job.validate
    simp only [List.any_append, validateRequired255_any, ifSegment_any]
    rw [show (("title" : String) == "posting_date_raw") = false from by decide,
      show (("company" : String) == "posting_date_raw") = false from by decide,
      show (("location" : String) == "posting_date_raw") = false from by decide,
      show (("job_type" : String) == "posting_date_raw") = false from by decide,
      show (("tags" : String) == "posting_date_raw") = false from by decide,
      show (("posting_date_raw" : String) == "posting_date_raw") = true from by decide,
      guard_eq_not_of_off_iff (raw_guard_off j.posting_date_raw)]
    simp
  · unfold Job.is_valid
    simp [List.length_eq_zero]

/-- Every list decomposes as a prefix followed by its dropWhile. -/
theorem exists_append_dropWhile (p : Char → Bool) (l : List Char) :
    ∃ t, l = t ++ l.dropWhile p := by
  induction l with
  | nil => exact ⟨[], rfl⟩
  | cons c cs ih =>
    cases h : p c with
    | true =>
      rcases ih with ⟨t, ht⟩
      refine ⟨c :: t, ?_⟩
      rw [List.dropWhile_cons, if_pos h, List.cons_append, ← ht]
    | false =>
      refine ⟨[], ?_⟩
      rw [List.dropWhile_cons, if_neg (by simp [h]), List.nil_append]

/-- dropWhile is idempotent. -/
theorem dropWhile_idem (p : Char → Bool) (l : List Char) :
    (l.dropWhile p).dropWhile p = l.dropWhile p := by
  induction l with
  | nil => rfl
  | cons c cs ih =>
    cases h : p c with
    | true => rw [List.dropWhile_cons, if_pos h]; exact ih
    | false =>
      rw [List.dropWhile_cons, if_neg (by simp [h]), List.dropWhile_cons, if_neg (by simp [h])]

/-- The head surviving a dropWhile fails the predicate. -/
theorem dropWhile_head_false (p : Char → Bool) (l : List Char) (c : Char) (cs : List Char)
    (h : l.dropWhile p = c :: cs) : p c = false := by
  induction l with
  | nil => exact absurd h (by simp)
  | cons a as ih =>
    cases ha : p a with
    | true => rw [List.dropWhile_cons, if_pos ha] at h; exact ih h
    | false =>
      rw [List.dropWhile_cons, if_neg (by simp [ha])] at h
      cases h
      exact ha

/-- A trimmed list has no leading whitespace left. -/
theorem trimChars_dropWhile (l : List Char) :
    (trimChars l).dropWhile isSpaceChar = trimChars l := by
  rcases exists_append_dropWhile isSpaceChar (l.dropWhile isSpaceChar).reverse with ⟨t, ht⟩
  have hA : l.dropWhile isSpaceChar = trimChars l ++ t.reverse := by
    unfold trimChars
    calc l.dropWhile isSpaceChar
        = (l.dropWhile isSpaceChar).reverse.reverse := by rw [List.reverse_reverse]
      _ = (t ++ (l.dropWhile isSpaceChar).reverse.dropWhile isSpaceChar).reverse := by rw [← ht]
      _ = ((l.dropWhile isSpaceChar).reverse.dropWhile isSpaceChar).reverse ++ t.reverse := by
            rw [List.reverse_append]
  cases hB : trimChars l with
  | nil => rfl
  | cons b bs =>
    have hhead : l.dropWhile isSpaceChar = b :: (bs ++ t.reverse) := by
      rw [hA, hB, List.cons_append]
    have hpb : isSpaceChar b = false := dropWhile_head_false isSpaceChar l b _ hhead
    rw [List.dropWhile_cons, if_neg (by simp [hpb])]

/-- Python strip is idempotent. -/
theorem trimChars_idem (l : List Char) : trimChars (trimChars l) = trimChars l := by
  show (((trimChars l).dropWhile isSpaceChar).reverse.dropWhile isSpaceChar).reverse = trimChars l
  rw [trimChars_dropWhile]
  unfold trimChars
  rw [List.reverse_reverse, dropWhile_idem]

/-- Trimming only removes characters. -/
theorem mem_of_mem_trimChars (c : Char) (l : List Char) (h : c ∈ trimChars l) : c ∈ l := by
  unfold trimChars at h
  rw [List.mem_reverse] at h
  rcases exists_append_dropWhile isSpaceChar (l.dropWhile isSpaceChar).reverse with ⟨t, ht⟩
  have h2 : c ∈ (l.dropWhile isSpaceChar).reverse := by
    rw [ht]
    exact List.mem_append_right t h
  rw [List.mem_reverse] at h2
  rcases exists_append_dropWhile isSpaceChar l with ⟨u, hu⟩
  rw [hu]
  exact List.mem_append_right u h2

/-- Splitting a separator-free list yields one token. -/
theorem splitCharAux_no_sep (sep : Char) (cs : List Char) :
    ∀ acc, (∀ c ∈ cs, (c == sep) = false) →
      splitCharAux sep cs acc = [acc.reverse ++ cs] := by
  induction cs with
  | nil => intro acc h; simp [splitCharAux]
  | cons c cs ih =>
    intro acc h
    have hc : (c == sep) = false := h c (List.mem_cons_self c cs)
    rw [show splitCharAux sep (c :: cs) acc =
        if (c == sep) = true then acc.reverse :: splitCharAux sep cs []
        else splitCharAux sep cs (c :: acc) from rfl,
      if_neg (by simp [hc])]
    rw [ih (c :: acc) (fun x hx => h x (List.mem_cons_of_mem c hx))]
    simp

/-- Splitting past a separator-free token followed by the separator emits the
token and continues. -/
theorem splitCharAux_append_sep (sep : Char) (rest : List Char) (x : List Char) :
    ∀ acc, (∀ c ∈ x, (c == sep) = false) →
      splitCharAux sep (x ++ sep :: rest) acc = (acc.reverse ++ x) :: splitCharAux sep rest [] := by
  induction x with
  | nil =>
    intro acc hx
    rw [List.nil_append,
      show splitCharAux sep (sep :: rest) acc =
        if (sep == sep) = true then acc.reverse :: splitCharAux sep rest []
        else splitCharAux sep rest (sep :: acc) from rfl,
      if_pos (by simp)]
    simp
  | cons c cs ih =>
    intro acc hx
    have hc : (c == sep) = false := hx c (List.mem_cons_self c cs)
    rw [List.cons_append,
      show splitCharAux sep (c :: (cs ++ sep :: rest)) acc =
        if (c == sep) = true then acc.reverse :: splitCharAux sep (cs ++ sep :: rest) []
        else splitCharAux sep (cs ++ sep :: rest) (c :: acc) from rfl,
      if_neg (by simp [hc])]
    rw [ih (c :: acc) (fun y hy => hx y (List.mem_cons_of_mem c hy))]
    simp

/-- Splitting a join of separator-free tokens recovers the tokens. -/
theorem split_join (sep : Char) (L : List (List Char))
    (h : ∀ x ∈ L, ∀ c ∈ x, (c == sep) = false) (hne : L ≠ []) :
    splitCharAux sep (joinChar sep L) [] = L := by
  induction L with
  | nil => exact absurd rfl hne
  | cons x xs ih =>
    cases xs with
    | nil =>
      show splitCharAux sep x [] = [x]
      rw [splitCharAux_no_sep sep x [] (h x (List.mem_cons_self x []))]
      simp
    | cons y ys =>
      show splitCharAux sep (x ++ sep :: joinChar sep (y :: ys)) [] = x :: y :: ys
      rw [splitCharAux_append_sep sep (joinChar sep (y :: ys)) x []
        (h x (List.mem_cons_self x (y :: ys)))]
      rw [ih (fun z hz c hc => h z (List.mem_cons_of_mem x hz) c hc) (by simp)]
      simp

/-- filterMap with a pointwise-identity function is the identity. -/
theorem filterMap_id_of {α : Type} (f : α → Option α) (l : List α) :
    (∀ x ∈ l, f x = some x) → l.filterMap f = l := by
  induction l with
  | nil => intro h; rfl
  | cons a as ih =>
    intro h
    have ha := h a (List.mem_cons_self a as)
    simp only [List.filterMap_cons, ha]
    rw [ih (fun x hx => h x (List.mem_cons_of_mem a hx))]

/-- A join headed by a non-empty token is non-empty. -/
theorem joinChar_ne_nil_of_head (sep : Char) (x : List Char) (xs : List (List Char))
    (hx : x ≠ []) : joinChar sep (x :: xs) ≠ [] := by
  cases xs with
  | nil => exact hx
  | cons y ys =>
    show x ++ sep :: joinChar sep (y :: ys) ≠ []
    simp

/-- Remaking a string from its characters is the identity. -/
theorem map_mk_map_data (L : List String) : (L.map String.data).map String.mk = L := by
  induction L with
  | nil => rfl
  | cons a as ih => simp [ih]

/-- C9: set_tags_from_list followed by get_tags_list returns the input list
with each entry stripped and blank entries dropped, for entries free of
commas. -/
theorem tags_round_trip (j : Job) (l : List String) (h : ∀ t ∈ l, ',' ∉ t.data) :
    (j.set_tags_from_list l).get_tags_list =
      (l.map pyStrip).filter (fun t => !t.data.isEmpty) := by
  have hmem : ∀ t ∈ (l.map pyStrip).filter (fun t => !t.data.isEmpty),
      trimChars t.data = t.data ∧ t.data.isEmpty = false := by
    intro t htmem
    rcases List.mem_filter.mp htmem with ⟨hmap, hfilt⟩
    rcases List.mem_map.mp hmap with ⟨t0, ht0, rfl⟩
    refine ⟨trimChars_idem t0.data, ?_⟩
    simpa using hfilt
  unfold Job.set_tags_from_list
  by_cases hl : l.isEmpty = true
  · rw [if_pos hl, List.isEmpty_iff.mp hl]
    rfl
  · rw [if_neg hl]
    show ({ j with tags :=
        (if ((l.map pyStrip).filter (fun t => !t.data.isEmpty)).isEmpty then none
         else some (pyJoinComma ((l.map pyStrip).filter (fun t => !t.data.isEmpty)))) } : Job).get_tags_list
      = (l.map pyStrip).filter (fun t => !t.data.isEmpty)
    by_cases hc : ((l.map pyStrip).filter (fun t => !t.data.isEmpty)).isEmpty = true
    · rw [if_pos hc]
      rw [show ({ j with tags := none } : Job).get_tags_list = [] from rfl]
      exact (List.isEmpty_iff.mp hc).symm
    · rw [if_neg hc]
      have hclnn : (l.map pyStrip).filter (fun t => !t.data.isEmpty) ≠ [] := by
        intro he
        rw [he] at hc
        exact hc rfl
      rcases List.exists_cons_of_ne_nil hclnn with ⟨c0, cs, hsplit⟩
      have hc0 : c0.data.isEmpty = false :=
        (hmem c0 (by rw [hsplit]; exact List.mem_cons_self c0 cs)).2
      have hjoin_ne :
          (pyJoinComma ((l.map pyStrip).filter (fun t => !t.data.isEmpty))).data ≠ [] := by
        show joinChar ','
          ((((l.map pyStrip).filter (fun t => !t.data.isEmpty))).map String.data) ≠ []
        rw [hsplit]
        show joinChar ',' (c0.data :: cs.map String.data) ≠ []
        apply joinChar_ne_nil_of_head
        intro h0
        rw [h0] at hc0
        simp at hc0
      have hjoin_isEmpty :
          (pyJoinComma ((l.map pyStrip).filter (fun t => !t.data.isEmpty))).data.isEmpty = false := by
        cases hx : (pyJoinComma ((l.map pyStrip).filter (fun t => !t.data.isEmpty))).data.isEmpty
        · rfl
        · exact absurd (List.isEmpty_iff.mp hx) hjoin_ne
      have hnocomma : ∀ x ∈ ((l.map pyStrip).filter (fun t => !t.data.isEmpty)).map String.data,
          ∀ c ∈ x, (c == ',') = false := by
        intro x hx c hcx
        rcases List.mem_map.mp hx with ⟨t1, htmem, rfl⟩
        rcases List.mem_filter.mp htmem with ⟨hmap, _⟩
        rcases List.mem_map.mp hmap with ⟨t0, ht0, rfl⟩
        have hin : c ∈ t0.data := mem_of_mem_trimChars c t0.data hcx
        have hneq : c ≠ ',' := fun he => h t0 ht0 (he ▸ hin)
        exact beq_eq_false_iff_ne.mpr hneq
      simp only [Job.get_tags_list]
      rw [if_neg (by rw [hjoin_isEmpty]; exact Bool.false_ne_true)]
      show ((splitCharAux ','
          (joinChar ',' (((l.map pyStrip).filter (fun t => !t.data.isEmpty)).map String.data))
          []).map String.mk).filterMap
          (fun t => if (trimChars t.data).isEmpty then none else some (pyStrip t))
        = (l.map pyStrip).filter (fun t => !t.data.isEmpty)
      rw [split_join ',' (((l.map pyStrip).filter (fun t => !t.data.isEmpty)).map String.data)
        hnocomma (by rw [hsplit]; simp)]
      rw [map_mk_map_data]
      apply filterMap_id_of
      intro t htmem
      have h1 := hmem t htmem
      rw [if_neg (by rw [h1.1, h1.2]; exact Bool.false_ne_true)]
      show some (String.mk (trimChars t.data)) = some t
      rw [h1.1]

/-- Witness for tags_round_trip at the concrete input of the claim. -/
theorem tags_round_trip_witness :
    (∀ t ∈ (["a", "b"] : List String), ',' ∉ t.data) ∧
    (jobA.set_tags_from_list ["a", "b"]).get_tags_list = ["a", "b"] :=
  ⟨by decide, by
    rw [tags_round_trip jobA ["a", "b"] (by decide)]
    decide⟩

/-- A stored row whose raw tags string is the single token python3, used to
contrast token membership with the list filter's substring match. -/
def jobPy : Job :=
  { id := 2, title := some "Dev", company := some "Acme", location := some "Remote",
    posting_date := none, posting_date_raw := none, job_type := none, tags := some "python3",
    created_at := 0, updated_at := 0 }

/-- C10: has_tag is true exactly when the probe is non-empty, the tags field
is truthy, and the probe's lowercase form equals the lowercase form of one of
the parsed tag tokens; it is exact token membership, unlike the list
endpoint's tag filter, which substring-matches the raw tags string — the
probe python matches jobPy's tags python3 under the filter but not under
has_tag. -/
theorem has_tag_token_membership (j : Job) (t : String) :
    (j.has_tag t = true ↔
      (t.data.isEmpty = false ∧ pyTruthy j.tags = true ∧
        ∃ tok ∈ j.get_tags_list, pyLower t = pyLower tok)) ∧
    (jobPy.has_tag "python" = false ∧
      jobMatchesQuery none none none (some "python") jobPy = true) := by
  constructor
  · unfold Job.has_tag
    by_cases h1 : (t.data.isEmpty || !pyTruthy j.tags) = true
    · rw [if_pos h1]
      constructor
      · intro hf; exact absurd hf (by simp)
      · rintro ⟨he, ht, -⟩
        rw [he, ht] at h1
        simp at h1
    · rw [if_neg h1]
      have h2 : t.data.isEmpty = false ∧ pyTruthy j.tags = true := by
        constructor
        · cases hx : t.data.isEmpty
          · rfl
          · exact absurd (by rw [hx]; simp : (t.data.isEmpty || !pyTruthy j.tags) = true) h1
        · cases hx : pyTruthy j.tags
          · exact absurd (by rw [hx]; simp : (t.data.isEmpty || !pyTruthy j.tags) = true) h1
          · rfl
      rw [List.any_eq_true]
      constructor
      · rintro ⟨x, hx, hbeq⟩
        rcases List.mem_map.mp hx with ⟨tok, htok, rfl⟩
        exact ⟨h2.1, h2.2, tok, htok, (beq_iff_eq.mp hbeq).symm⟩
      · rintro ⟨-, -, tok, htok, heq⟩
        exact ⟨pyLower tok, List.mem_map_of_mem pyLower htok, beq_iff_eq.mpr heq.symm⟩
  · exact ⟨by decide, by decide⟩
